import Mathlib

/-!
# LightlyShaders: rounded-corner effect (lightlyshaders.cpp)

A shallow embedding of `LightlyShadersEffect` and the properties of its
geometry, window filter, maximize suppression, texture regeneration and
paint gate.

Conventions of the embedding:
* C++ `int` coordinates are unbounded integers (signed overflow is undefined
  in C++, so the model agrees with the code wherever the code is defined);
* an `EffectWindow *` is a natural-number identity, `NULL` is `none`;
* a `QRegion` is the set of pixels it covers (a Boolean membership test);
* GPU textures and images are records of the calls that built them.
-/

namespace LightlyShaders

/-! ## Qt geometry -/

/-- QPoint: a pixel position. -/
structure QPoint where
  x : Int
  y : Int
deriving DecidableEq, Repr

/-- QPoint subtraction, componentwise (`operator-` of QPoint). -/
instance : Sub QPoint := ⟨fun a b => ⟨a.x - b.x, a.y - b.y⟩⟩

/-- QSize: a width and a height. -/
structure QSize where
  width : Int
  height : Int
deriving DecidableEq, Repr

/-- QRect as Qt stores it: the top-left pixel (x1, y1) and the bottom-right
pixel (x2, y2), both belonging to the rectangle. -/
structure QRect where
  x1 : Int
  y1 : Int
  x2 : Int
  y2 : Int
deriving DecidableEq, Repr

namespace QRect

/-- The constructor `QRect(int x, int y, int width, int height)`. -/
def ofXYWH (x y w h : Int) : QRect := ⟨x, y, x + w - 1, y + h - 1⟩

/-- The constructor `QRect(const QPoint &topLeft, const QSize &size)`. -/
def ofPointSize (p : QPoint) (s : QSize) : QRect :=
  ⟨p.x, p.y, p.x + s.width - 1, p.y + s.height - 1⟩

def x (r : QRect) : Int := r.x1
def y (r : QRect) : Int := r.y1
def width (r : QRect) : Int := r.x2 - r.x1 + 1
def height (r : QRect) : Int := r.y2 - r.y1 + 1
def size (r : QRect) : QSize := ⟨r.width, r.height⟩
def topLeft (r : QRect) : QPoint := ⟨r.x1, r.y1⟩
def topRight (r : QRect) : QPoint := ⟨r.x2, r.y1⟩
def bottomRight (r : QRect) : QPoint := ⟨r.x2, r.y2⟩
def bottomLeft (r : QRect) : QPoint := ⟨r.x1, r.y2⟩

/-- The method `QRect::adjusted(dx1, dy1, dx2, dy2)`. -/
def adjusted (r : QRect) (dx1 dy1 dx2 dy2 : Int) : QRect :=
  ⟨r.x1 + dx1, r.y1 + dy1, r.x2 + dx2, r.y2 + dy2⟩

/-- Pixel membership: the pixel (px, py) lies inside the rectangle. An empty
rectangle (x2 < x1 or y2 < y1) has no pixel. -/
def contains (r : QRect) (px py : Int) : Bool :=
  decide (r.x1 ≤ px) && decide (px ≤ r.x2) && decide (r.y1 ≤ py) && decide (py ≤ r.y2)

end QRect

/-- QRegion, modelled by the set of pixels it covers. -/
structure QRegion where
  contains : Int → Int → Bool

namespace QRegion

/-- The constructor `QRegion(const QRect &)`. -/
def ofRect (r : QRect) : QRegion := ⟨fun px py => r.contains px py⟩

/-- Region subtraction, `operator-` and `operator-=` on regions. -/
def sub (a b : QRegion) : QRegion := ⟨fun px py => a.contains px py && !b.contains px py⟩

/-- Region union, `operator+` and `operator+=` on regions. -/
def united (a b : QRegion) : QRegion := ⟨fun px py => a.contains px py || b.contains px py⟩

/-- Subtraction of a rectangle, `reg -= rect` (the rectangle converts to a region). -/
def subRect (a : QRegion) (r : QRect) : QRegion := a.sub (ofRect r)

/-- Union with a rectangle, `reg += rect`. -/
def unitedRect (a : QRegion) (r : QRect) : QRegion := a.united (ofRect r)

end QRegion

/-! ## Corner indices -/

/-- The enum `{ TopLeft = 0, TopRight, BottomRight, BottomLeft, NTex }`. -/
inductive Corner where
  | TopLeft
  | TopRight
  | BottomRight
  | BottomLeft
deriving DecidableEq, Repr

/-- The index range of `for (int i = 0; i < NTex; ++i)`. -/
def Corner.all : List Corner :=
  [Corner.TopLeft, Corner.TopRight, Corner.BottomRight, Corner.BottomLeft]

/-- The integer value of a corner index (the `corner_number` uniform). -/
def Corner.toNat : Corner → Nat
  | Corner.TopLeft => 0
  | Corner.TopRight => 1
  | Corner.BottomRight => 2
  | Corner.BottomLeft => 3

/-- A four-element array indexed by corner, `T x[NTex]`. -/
structure CornerSet (α : Type) where
  topLeft : α
  topRight : α
  bottomRight : α
  bottomLeft : α
deriving DecidableEq, Repr

/-- Array indexing `x[i]`. -/
def CornerSet.get {α : Type} (c : CornerSet α) : Corner → α
  | Corner.TopLeft => c.topLeft
  | Corner.TopRight => c.topRight
  | Corner.BottomRight => c.bottomRight
  | Corner.BottomLeft => c.bottomLeft

/-! ## Corner rectangles and stroke regions of paintWindow / prePaintWindow -/

/-- The value `m_corner = QSize(m_size+1, m_size+1)` assigned by setRoundness. -/
def cornerSize (m_size : Int) : QSize := ⟨m_size + 1, m_size + 1⟩

/-- The array `big_rect[NTex]` of paintWindow (lines 353-360), with
`size = QSize(m_size+2, m_size+2)`. -/
def big_rect (m_size : Int) (geo : QRect) : CornerSet QRect :=
  let size : QSize := ⟨m_size + 2, m_size + 2⟩
  { topLeft := QRect.ofPointSize (geo.topLeft - ⟨2, 2⟩) size
    topRight := QRect.ofPointSize (geo.topRight - ⟨m_size - 1, 2⟩) size
    bottomRight := QRect.ofPointSize (geo.bottomRight - ⟨m_size - 1, m_size - 1⟩) size
    bottomLeft := QRect.ofPointSize (geo.bottomLeft - ⟨2, m_size - 1⟩) size }

/-- The array `rect[NTex]` of paintWindow (lines 374-380). -/
def paintRect (m_size : Int) (m_corner : QSize) (geo : QRect) : CornerSet QRect :=
  { topLeft := QRect.ofPointSize (geo.topLeft - ⟨1, 1⟩) m_corner
    topRight := QRect.ofPointSize (geo.topRight - ⟨m_size - 1, 1⟩) m_corner
    bottomRight := QRect.ofPointSize (geo.bottomRight - ⟨m_size - 1, m_size - 1⟩) m_corner
    bottomLeft := QRect.ofPointSize (geo.bottomLeft - ⟨1, m_size - 1⟩) m_corner }

/-- The array `rect[NTex]` of prePaintWindow (lines 304-310). -/
def prePaintRect (m_size : Int) (m_corner : QSize) (geo : QRect) : CornerSet QRect :=
  { topLeft := QRect.ofPointSize geo.topLeft m_corner
    topRight := QRect.ofPointSize (geo.topRight - ⟨m_size, 0⟩) m_corner
    bottomRight := QRect.ofPointSize (geo.bottomRight - ⟨m_size, m_size⟩) m_corner
    bottomLeft := QRect.ofPointSize (geo.bottomLeft - ⟨0, m_size⟩) m_corner }

/-- The loop `for (int i = 0; i < NTex; ++i) reg -= rect[i];`. -/
def subCorners (reg : QRegion) (rect : CornerSet QRect) : QRegion :=
  Corner.all.foldl (fun acc i => acc.subRect (rect.get i)) reg

/-- The inner stroke ("Outline") region of paintWindow (lines 445, 452-454):
`reg = geo; reg -= QRegion(geo.adjusted(1, 1, -1, -1)); reg -= rect[i]`. -/
def outlineRegion (geo : QRect) (rect : CornerSet QRect) : QRegion :=
  subCorners ((QRegion.ofRect geo).sub (QRegion.ofRect (geo.adjusted 1 1 (-1) (-1)))) rect

/-- The outer stroke ("Borderline") region of paintWindow (lines 462-465):
`reg = QRegion(geo.adjusted(-1, -1, 1, 1)); reg -= geo; reg -= rect[i]`. -/
def borderlineRegion (geo : QRect) (rect : CornerSet QRect) : QRegion :=
  subCorners ((QRegion.ofRect (geo.adjusted (-1) (-1) 1 1)).sub (QRegion.ofRect geo)) rect

/-- The border ring named by the specification: the frame expanded by one
pixel minus the frame inset by one pixel. -/
def borderRing (geo : QRect) : QRegion :=
  (QRegion.ofRect (geo.adjusted (-1) (-1) 1 1)).sub (QRegion.ofRect (geo.adjusted 1 1 (-1) (-1)))

/-! ## Images and textures (records of the calls that build them) -/

/-- QColor(r, g, b, a). -/
structure QColor where
  red : Int
  green : Int
  blue : Int
  alpha : Int
deriving DecidableEq, Repr

/-- The colour `Qt::black`. -/
def QColor.black : QColor := ⟨0, 0, 0, 255⟩

/-- The colour `Qt::transparent`. -/
def QColor.transparent : QColor := ⟨0, 0, 0, 0⟩

/-- The two QPainter composition modes the generators use. -/
inductive CompositionMode where
  | SourceOver
  | DestinationOut
deriving DecidableEq, Repr

/-- One drawing call on an image. -/
inductive PaintOp where
  | fill (c : QColor)
  | fillRect (r : QRect) (c : QColor)
  | drawEllipse (mode : CompositionMode) (brush : QColor) (antialiasing : Bool) (r : QRect)
deriving DecidableEq, Repr

/-- A QImage(width, height, Format_ARGB32_Premultiplied) together with the
drawing calls made on it, in order. -/
structure QImage where
  width : Int
  height : Int
  ops : List PaintOp
deriving DecidableEq, Repr

/-- The method `QImage::rect()`. -/
def QImage.rect (img : QImage) : QRect := QRect.ofXYWH 0 0 img.width img.height

/-- A texture `new KWin::GLTexture(img.copy(x, y, width, height) [, GL_TEXTURE_RECTANGLE])`:
the image it is cut from and the requested cut. For a positive request the
texture is width x height pixels. -/
structure GLTexture where
  source : QImage
  x : Int
  y : Int
  width : Int
  height : Int
  rectangleTarget : Bool
deriving DecidableEq, Repr

/-- The texture built from `img.copy(x, y, w, h)`. -/
def QImage.copyTexture (img : QImage) (x y w h : Int) (rectangleTarget : Bool) : GLTexture :=
  ⟨img, x, y, w, h, rectangleTarget⟩

/-- Brush of the first ellipse drawn on an image (the ring colour of genRect). -/
def QImage.firstEllipseBrush (img : QImage) : Option QColor :=
  img.ops.findSome? fun op =>
    match op with
    | PaintOp.drawEllipse _ brush _ _ => some brush
    | _ => none

/-- Alpha with which the ring of a ring texture is drawn. -/
def GLTexture.ringAlpha (t : GLTexture) : Option Int :=
  t.source.firstEllipseBrush.map QColor.alpha

/-! ## Configuration -/

/-- The group "General" of lightlyshaders.conf; a key that is absent is `none`. -/
structure KConfigGroup where
  alpha : Option Int
  outline : Option Bool
  dark_theme : Option Bool
  disabled_for_maximized : Option Bool
  roundness : Option Int
deriving DecidableEq, Repr

/-- The call `conf.readEntry(key, default)`. -/
def readEntry {α : Type} (entry : Option α) (dflt : α) : α := entry.getD dflt

/-- The binary64 literal `2.55` is 5742089524897382 / 2^51 (the double nearest to 2.55). -/
def literal255 : Nat := 5742089524897382

/-- Number of binary digits of n, by repeated halving (`fuel` bounds the halvings). -/
def bitLengthAux : Nat → Nat → Nat
  | 0, _ => 0
  | fuel + 1, n => if n = 0 then 0 else bitLengthAux fuel (n / 2) + 1

/-- Number of binary digits of n (0 for n = 0). -/
def bitLength (n : Nat) : Nat := bitLengthAux n n

/-- IEEE-754 binary64 rounding (round to nearest, ties to even) of the
non-negative value n / 2^51; the result is again a numerator over 2^51.
Exact for the whole range reached by a 32-bit integer times 2.55. -/
def roundBinary64 (n : Nat) : Nat :=
  let bits := bitLength n
  if bits ≤ 53 then n
  else
    let s := bits - 53
    let q := n / 2 ^ s
    let r := n % 2 ^ s
    let half := 2 ^ (s - 1)
    let q1 := if half < r ∨ (r = half ∧ q % 2 = 1) then q + 1 else q
    q1 * 2 ^ s

/-- The expression `int(percent * 2.55)`: the integer is converted to double
exactly, the product is rounded to binary64, and `int()` truncates toward zero. -/
def alphaFromPercent (percent : Int) : Int :=
  let magnitude : Nat := roundBinary64 (percent.natAbs * literal255) / 2 ^ 51
  if percent < 0 then -(magnitude : Int) else (magnitude : Int)

/-! ## Windows and host -/

/-- The enum `NET::WindowType`. -/
inductive WindowType where
  | Unknown
  | Normal
  | Desktop
  | Dock
  | Toolbar
  | Menu
  | Dialog
  | Override
  | TopMenu
  | Utility
  | Splash
  | DropdownMenu
  | PopupMenu
  | Tooltip
  | Notification
  | ComboBox
  | DNDIcon
  | OnScreenDisplay
  | CriticalNotification
deriving DecidableEq, Repr

/-- A `KWin::EffectWindow *`: the pointer identity and the answers the host
gives to the queries the effect makes on it. -/
structure EffectWindow where
  ptr : Nat
  windowType : WindowType
  windowClass : String
  hasDecoration : Bool
  isNormalWindow : Bool
  isDialog : Bool
  isModal : Bool
  isPaintingEnabled : Bool
  isDesktop : Bool
  isPopupMenu : Bool
  geometry : QRect
  frameGeometry : QRect
  expandedGeometry : QRect
deriving DecidableEq, Repr

/-- Sub-list test on characters. -/
def hasSublist : List Char → List Char → Bool
  | [], needle => needle.isEmpty
  | c :: cs, needle => needle.isPrefixOf (c :: cs) || hasSublist cs needle

/-- Modelled from the spec: `QString::contains(needle, Qt::CaseInsensitive)`, a
Qt library routine; matching is on lower-cased characters. -/
def containsCI (hay needle : String) : Bool :=
  hasSublist (hay.toList.map Char.toLower) (needle.toList.map Char.toLower)

/-- What the effect asks of `KWin::effects` while painting. -/
structure Host where
  hasActiveFullScreenEffect : Bool
  virtualScreenGeometry : QRect
deriving DecidableEq, Repr

/-- The sender of a Qt signal, as far as the effect can tell them apart. -/
inductive QObject where
  | effectsHandler
  | effectWindow (ptr : Nat)
deriving DecidableEq, Repr

/-- The cast `dynamic_cast<KWin::EffectWindow *>(obj)`: the object itself when
it is an EffectWindow, `NULL` otherwise. -/
def dynamicCastEffectWindow : QObject → Option Nat
  | QObject.effectsHandler => none
  | QObject.effectWindow p => some p

/-- The call `QList::removeOne(value)`: removes the first entry equal to the
value. The list holds windows only, so `NULL` matches nothing. -/
def removeOne (l : List Nat) : Option Nat → List Nat
  | none => l
  | some p => l.erase p

/-! ## The effect object -/

/-- The data members of LightlyShadersEffect that the modelled methods use.
`m_shaderValid` is `m_shader->isValid()`. -/
structure LightlyShadersEffect where
  m_shaderValid : Bool
  m_managed : List Nat
  m_applyEffect : Option Nat
  m_size : Int
  m_rSize : Int
  m_corner : QSize
  m_alpha : Int
  m_outline : Bool
  m_dark_theme : Bool
  m_disabled_for_maximized : Bool
  m_tex : CornerSet (Option GLTexture)
  m_rect : CornerSet (Option GLTexture)
  m_dark_rect : CornerSet (Option GLTexture)
deriving DecidableEq, Repr

/-- The method windowAdded (lines 149-171). -/
def windowAdded (s : LightlyShadersEffect) (w : EffectWindow) : LightlyShadersEffect :=
  if s.m_managed.contains w.ptr
      || w.windowType == WindowType.OnScreenDisplay
      || w.windowType == WindowType.Dock
      || w.windowType == WindowType.Menu
      || w.windowType == WindowType.DropdownMenu then s
  else if !w.hasDecoration && (containsCI w.windowClass "plasma"
      || containsCI w.windowClass "krunner"
      || containsCI w.windowClass "latte-dock"
      || containsCI w.windowClass "lattedock") then s
  else if containsCI w.windowClass "plasma" && !w.isNormalWindow && !w.isDialog && !w.isModal then s
  else if !w.isPaintingEnabled || w.isDesktop || w.isPopupMenu then s
  else { s with m_managed := s.m_managed ++ [w.ptr] }

/-- The lambda connected to windowClosed (line 121):
`m_managed.removeOne(dynamic_cast<KWin::EffectWindow *>(sender()))`. -/
def windowClosedSlot (s : LightlyShadersEffect) (sender : QObject) : LightlyShadersEffect :=
  { s with m_managed := removeOne s.m_managed (dynamicCastEffectWindow sender) }

/-- Delivery of `EffectsHandler::windowClosed(w)` through the connection of
line 121: the lambda takes no argument, and `sender()` is the emitting
object, `KWin::effects`. -/
def onWindowClosed (s : LightlyShadersEffect) (_w : EffectWindow) : LightlyShadersEffect :=
  windowClosedSlot s QObject.effectsHandler

/-- The method windowMaximizedStateChanged (lines 173-182). -/
def windowMaximizedStateChanged (s : LightlyShadersEffect) (w : Nat)
    (horizontal vertical : Bool) : LightlyShadersEffect :=
  if !s.m_disabled_for_maximized then s
  else if horizontal == true && vertical == true then { s with m_applyEffect := some w }
  else { s with m_applyEffect := none }

/-- The method genMasks (lines 184-206). -/
def genMasks (s : LightlyShadersEffect) : LightlyShadersEffect :=
  let side := (s.m_size + 1) * 2
  let img : QImage :=
    { width := side, height := side,
      ops := [PaintOp.fill QColor.transparent,
              PaintOp.fillRect (QRect.ofXYWH 0 0 side side) QColor.black,
              PaintOp.drawEllipse CompositionMode.DestinationOut QColor.black true
                (QRect.ofXYWH 1 1 (s.m_size * 2) (s.m_size * 2))] }
  { s with m_tex :=
      { topLeft := some (img.copyTexture 0 0 (s.m_size + 1) (s.m_size + 1) true)
        topRight := some (img.copyTexture (s.m_size + 1) 0 (s.m_size + 1) (s.m_size + 1) true)
        bottomRight :=
          some (img.copyTexture (s.m_size + 1) (s.m_size + 1) (s.m_size + 1) (s.m_size + 1) true)
        bottomLeft := some (img.copyTexture 0 (s.m_size + 1) (s.m_size + 1) (s.m_size + 1) true) } }

/-- The ring image of genRect: an ellipse in the image rectangle inset by one
pixel, drawn with the brush, then the ellipse inset by one more pixel erased. -/
def ringImage (rSize : Int) (brush : QColor) : QImage :=
  let r0 := QRect.ofXYWH 0 0 (rSize * 2) (rSize * 2)
  let r1 := r0.adjusted 1 1 (-1) (-1)
  let r2 := r1.adjusted 1 1 (-1) (-1)
  { width := rSize * 2, height := rSize * 2,
    ops := [PaintOp.fill QColor.transparent,
            PaintOp.drawEllipse CompositionMode.SourceOver brush true r1,
            PaintOp.drawEllipse CompositionMode.DestinationOut QColor.black true r2] }

/-- The four quadrant copies `img.copy(0, 0, n, n)`, `img.copy(n, 0, n, n)`,
`img.copy(n, n, n, n)`, `img.copy(0, n, n, n)` as plain textures. -/
def quadrants (img : QImage) (n : Int) : CornerSet (Option GLTexture) :=
  { topLeft := some (img.copyTexture 0 0 n n false)
    topRight := some (img.copyTexture n 0 n n false)
    bottomRight := some (img.copyTexture n n n n false)
    bottomLeft := some (img.copyTexture 0 n n n false) }

/-- The method genRect (lines 208-264). -/
def genRect (s : LightlyShadersEffect) : LightlyShadersEffect :=
  let rSize1 := s.m_size + 1
  let img := ringImage rSize1 ⟨255, 255, 255, s.m_alpha⟩
  let rSize2 := s.m_size + 2
  let img2 := ringImage rSize2 (if s.m_dark_theme then ⟨0, 0, 0, 240⟩ else ⟨0, 0, 0, s.m_alpha⟩)
  { s with m_rSize := rSize2
           m_rect := quadrants img rSize1
           m_dark_rect := quadrants img2 rSize2 }

/-- The method setRoundness (lines 266-273). -/
def setRoundness (s : LightlyShadersEffect) (r : Int) : LightlyShadersEffect :=
  genRect (genMasks { s with m_size := r, m_corner := cornerSize r })

/-- The method reconfigure (lines 275-285). -/
def reconfigure (s : LightlyShadersEffect) (conf : KConfigGroup) : LightlyShadersEffect :=
  setRoundness
    { s with m_alpha := alphaFromPercent (readEntry conf.alpha 15)
             m_outline := readEntry conf.outline false
             m_dark_theme := readEntry conf.dark_theme false
             m_disabled_for_maximized := readEntry conf.disabled_for_maximized false }
    (readEntry conf.roundness 5)

/-- The static function hasShadow (lines 323-328). -/
def hasShadow (w : EffectWindow) : Bool :=
  if w.expandedGeometry.size != w.frameGeometry.size then true else false

/-! ## Painting: the sequence of host and GPU calls -/

/-- QMatrix4x4, kept symbolic: a base matrix and the translation applied to it. -/
structure QMatrix4x4 where
  base : Nat
  tx : Int
  ty : Int
deriving DecidableEq, Repr

/-- The call `mvp.translate(x, y)`. -/
def QMatrix4x4.translate (m : QMatrix4x4) (x y : Int) : QMatrix4x4 :=
  { m with tx := m.tx + x, ty := m.ty + y }

/-- The parts of `KWin::WindowPaintData` that paintWindow reads. The values
are finite doubles, held as the rationals they denote. -/
structure WindowPaintData where
  opacity : ℚ
  brightness : ℚ
  crossFadeProgress : ℚ
  screenProjectionMatrix : QMatrix4x4
deriving DecidableEq

/-- The paint and clip regions of `KWin::WindowPrePaintData`. -/
structure WindowPrePaintData where
  paint : QRegion
  clip : QRegion

/-- Modelled from the spec: the host flag `PAINT_WINDOW_TRANSFORMED` (the
window is being geometrically transformed by another effect). The host header
kwineffects.h, which is not part of the sources, defines it as `1 << 2`; no
property below depends on the value. -/
def PAINT_WINDOW_TRANSFORMED : Nat := 4

/-- The two framebuffer captures of one paintWindow call. -/
inductive CapturePass where
  | beforeWindow
  | afterWindow
deriving DecidableEq, Repr

/-- A texture object handed to the GPU: a cached member texture
(`m_tex[i]`, `m_rect[i]`, `m_dark_rect[i]`) or a capture made in this call. -/
inductive TexHandle where
  | cached (t : Option GLTexture)
  | captured (pass : CapturePass) (i : Corner)
deriving DecidableEq, Repr

/-- Blend factors passed to glBlendFunc. -/
inductive BlendFactor where
  | One
  | SrcAlpha
  | OneMinusSrcAlpha
deriving DecidableEq, Repr

/-- A shader pushed on the ShaderManager: `m_shader`, or a stock shader
selected by traits. -/
inductive Shader where
  | custom
  | traits (mapTexture uniformColor modulate : Bool)
deriving DecidableEq, Repr

/-- The colour `QColor(r, g, b, alphaBase * opacity)` of fillRegion; the
floating-point product is kept unevaluated. -/
structure FillColour where
  red : Int
  green : Int
  blue : Int
  alphaBase : Int
  opacity : ℚ
deriving DecidableEq

/-- One call made by paintWindow on the host or on the GPU state. -/
inductive GLCall where
  | hostPaintWindow (w : EffectWindow) (mask : Nat) (region : QRegion) (data : WindowPaintData)
  | createTexture (pass : CapturePass) (i : Corner) (width height : Int)
  | bind (t : TexHandle)
  | unbind (t : TexHandle)
  | glCopyTexSubImage2D (x y width height : Int)
  | glEnableBlend
  | glDisableBlend
  | glBlendFunc (sfactor dfactor : BlendFactor)
  | pushShader (sh : Shader)
  | popShader
  | setUniformMatrix (m : QMatrix4x4)
  | setUniformCorner (n : Nat)
  | setUniformModulation (o : ℚ)
  | glActiveTexture (texUnit : Nat)
  | render (t : TexHandle) (region : QRegion) (rect : QRect)
  | fillRegion (reg : QRegion) (c : FillColour)

/-- A framebuffer capture. -/
def GLCall.isCapture : GLCall → Bool
  | GLCall.glCopyTexSubImage2D _ _ _ _ => true
  | GLCall.createTexture _ _ _ _ => true
  | _ => false

/-- A texture bind. -/
def GLCall.isBind : GLCall → Bool
  | GLCall.bind _ => true
  | _ => false

/-- A draw call. -/
def GLCall.isDraw : GLCall → Bool
  | GLCall.render _ _ _ => true
  | GLCall.fillRegion _ _ => true
  | _ => false

/-- The method getTexRegions (lines 497-523); `pass` names the textures of
the returned list. -/
def getTexRegions (host : Host) (pass : CapturePass) (rect : CornerSet QRect) : List GLCall :=
  (Corner.all.map fun i =>
    let r := rect.get i
    [GLCall.createTexture pass i r.width r.height,
     GLCall.bind (TexHandle.captured pass i),
     GLCall.glCopyTexSubImage2D r.x (host.virtualScreenGeometry.height - r.y - r.height)
       r.width r.height,
     GLCall.unbind (TexHandle.captured pass i)]).flatten

/-- The method prePaintWindow (lines 287-321): the paint data handed on to
the host. -/
def prePaintWindow (s : LightlyShadersEffect) (host : Host) (w : EffectWindow)
    (data : WindowPrePaintData) : WindowPrePaintData :=
  if !s.m_shaderValid
      || !s.m_managed.contains w.ptr
      || !w.isPaintingEnabled
      || host.hasActiveFullScreenEffect
      || w.isDesktop
      || (some w.ptr == s.m_applyEffect) then data
  else
    let geo := w.geometry
    let rect := prePaintRect s.m_size s.m_corner geo
    let data1 : WindowPrePaintData :=
      Corner.all.foldl
        (fun d i => { paint := d.paint.unitedRect (rect.get i), clip := d.clip.subRect (rect.get i) })
        data
    let outerRect :=
      (QRegion.ofRect (geo.adjusted (-2) (-2) 2 2)).sub (QRegion.ofRect (geo.adjusted 2 2 (-2) (-2)))
    { paint := data1.paint.united outerRect, clip := data1.clip.sub outerRect }

/-- The rounded-corner pass of paintWindow (lines 383-406). -/
def drawCorners (s : LightlyShadersEffect) (region : QRegion) (data : WindowPaintData)
    (rect : CornerSet QRect) : List GLCall :=
  [GLCall.glEnableBlend,
   GLCall.glBlendFunc BlendFactor.SrcAlpha BlendFactor.OneMinusSrcAlpha,
   GLCall.pushShader Shader.custom]
  ++ (Corner.all.map fun i =>
      [GLCall.setUniformMatrix (data.screenProjectionMatrix.translate (rect.get i).x (rect.get i).y),
       GLCall.setUniformCorner i.toNat,
       GLCall.glActiveTexture 2,
       GLCall.bind (TexHandle.cached (s.m_tex.get i)),
       GLCall.glActiveTexture 1,
       GLCall.bind (TexHandle.captured CapturePass.afterWindow i),
       GLCall.glActiveTexture 0,
       GLCall.bind (TexHandle.captured CapturePass.beforeWindow i),
       GLCall.render (TexHandle.captured CapturePass.beforeWindow i) region (rect.get i),
       GLCall.unbind (TexHandle.captured CapturePass.beforeWindow i),
       GLCall.unbind (TexHandle.captured CapturePass.afterWindow i),
       GLCall.unbind (TexHandle.cached (s.m_tex.get i))]).flatten
  ++ [GLCall.popShader]

/-- One ring pass of the outline block: each cached ring texture is drawn at
its corner rectangle. -/
def drawRings (tex : CornerSet (Option GLTexture)) (region : QRegion) (data : WindowPaintData)
    (rect : CornerSet QRect) : List GLCall :=
  (Corner.all.map fun i =>
    [GLCall.setUniformMatrix (data.screenProjectionMatrix.translate (rect.get i).x (rect.get i).y),
     GLCall.bind (TexHandle.cached (tex.get i)),
     GLCall.render (TexHandle.cached (tex.get i)) region (rect.get i),
     GLCall.unbind (TexHandle.cached (tex.get i))]).flatten

/-- The outline block of paintWindow (lines 411-470). -/
def drawOutline (s : LightlyShadersEffect) (region : QRegion) (data : WindowPaintData)
    (geo : QRect) (big : CornerSet QRect) (rect : CornerSet QRect) : List GLCall :=
  let o := data.opacity
  [GLCall.pushShader (Shader.traits true true true),
   GLCall.glBlendFunc BlendFactor.One BlendFactor.OneMinusSrcAlpha,
   GLCall.pushShader (Shader.traits true true true),
   GLCall.setUniformModulation o]
  ++ drawRings s.m_dark_rect region data big
  ++ [GLCall.popShader,
      GLCall.setUniformModulation o]
  ++ drawRings s.m_rect region data rect
  ++ [GLCall.popShader,
      GLCall.pushShader (Shader.traits false true false),
      GLCall.setUniformMatrix data.screenProjectionMatrix,
      GLCall.glBlendFunc BlendFactor.SrcAlpha BlendFactor.OneMinusSrcAlpha,
      GLCall.fillRegion (outlineRegion geo rect) ⟨255, 255, 255, s.m_alpha, o⟩,
      GLCall.popShader,
      GLCall.pushShader (Shader.traits false true false),
      GLCall.setUniformMatrix data.screenProjectionMatrix,
      GLCall.glBlendFunc BlendFactor.One BlendFactor.OneMinusSrcAlpha,
      GLCall.fillRegion (borderlineRegion geo rect)
        (if s.m_dark_theme then ⟨0, 0, 0, 255, o⟩ else ⟨0, 0, 0, s.m_alpha, o⟩),
      GLCall.popShader]

/-- The method paintWindow (lines 330-474): the calls it makes, in order. -/
def paintWindow (s : LightlyShadersEffect) (host : Host) (w : EffectWindow) (mask : Nat)
    (region : QRegion) (data : WindowPaintData) : List GLCall :=
  if !s.m_shaderValid
      || !s.m_managed.contains w.ptr
      || !w.isPaintingEnabled
      || host.hasActiveFullScreenEffect
      || w.isDesktop
      || !hasShadow w
      || (some w.ptr == s.m_applyEffect) then
    [GLCall.hostPaintWindow w mask region data]
  else
    let use_outline := if mask &&& PAINT_WINDOW_TRANSFORMED != 0 then false else s.m_outline
    let geo := w.frameGeometry
    let big := big_rect s.m_size geo
    let rect := paintRect s.m_size s.m_corner geo
    getTexRegions host CapturePass.beforeWindow big
    ++ [GLCall.hostPaintWindow w mask region data]
    ++ getTexRegions host CapturePass.afterWindow big
    ++ drawCorners s region data rect
    ++ (if use_outline && data.brightness == 1 && data.crossFadeProgress == 1 then
          drawOutline s region data geo big rect
        else [])
    ++ [GLCall.glDisableBlend]

/-! ## Construction and event sequences -/

/-- The state the constructor leaves (lines 72-82, 105): null textures, then
`reconfigure(ReconfigureAll)`, no tracked window and `m_applyEffect = NULL`.
Every member that the constructor does not initialise is overwritten by
reconfigure before it is read. -/
def construct (conf : KConfigGroup) (shaderValid : Bool) : LightlyShadersEffect :=
  reconfigure
    { m_shaderValid := shaderValid, m_managed := [], m_applyEffect := none,
      m_size := 0, m_rSize := 0, m_corner := ⟨-1, -1⟩, m_alpha := 0,
      m_outline := false, m_dark_theme := false, m_disabled_for_maximized := false,
      m_tex := ⟨none, none, none, none⟩,
      m_rect := ⟨none, none, none, none⟩,
      m_dark_rect := ⟨none, none, none, none⟩ }
    conf

/-- One `windowMaximizedStateChanged(w, horizontal, vertical)` notification. -/
structure MaximizeEvent where
  w : Nat
  horizontal : Bool
  vertical : Bool
deriving DecidableEq, Repr

/-- Delivery of a sequence of maximize notifications, oldest first. -/
def runMaximizeEvents (s : LightlyShadersEffect) (evs : List MaximizeEvent) :
    LightlyShadersEffect :=
  evs.foldl (fun st e => windowMaximizedStateChanged st e.w e.horizontal e.vertical) s

/-- The window is maximize-suppressed: the test `w == m_applyEffect` of
prePaintWindow and paintWindow. -/
def suppressed (s : LightlyShadersEffect) (w : Nat) : Bool := some w == s.m_applyEffect

/-- The window of the most recent event of the sequence that reported
horizontal = true and vertical = true, if there is one (the wording of the
specification). -/
def lastBothMaximized (evs : List MaximizeEvent) : Option Nat :=
  (evs.reverse.find? fun e => e.horizontal && e.vertical).map MaximizeEvent.w

/-- Delivery of a sequence of reconfigure calls, oldest first. -/
def runReconfigures (s : LightlyShadersEffect) (confs : List KConfigGroup) :
    LightlyShadersEffect :=
  confs.foldl reconfigure s

/-! ## The statements of the specification, in its own words -/

/-- Two regions share no pixel. -/
def RegionsDisjoint (a b : QRegion) : Prop :=
  ∀ px py : Int, ¬ (a.contains px py = true ∧ b.contains px py = true)

/-- Some region of the list covers the pixel. -/
def coveredBy (pieces : List QRegion) (px py : Int) : Bool :=
  pieces.any fun p => p.contains px py

/-- Number of regions of the list that cover the pixel. -/
def coverCount (pieces : List QRegion) (px py : Int) : Nat :=
  pieces.countP fun p => p.contains px py

/-- The four padded corner rectangles `big_rect[i]` followed by the inner and
the outer stroke region, as paintWindow computes them for a frame. -/
def paddedPieces (s : LightlyShadersEffect) (geo : QRect) : List QRegion :=
  let big := big_rect s.m_size geo
  let rect := paintRect s.m_size s.m_corner geo
  Corner.all.map (fun i => QRegion.ofRect (big.get i))
    ++ [outlineRegion geo rect, borderlineRegion geo rect]

/-- The four tight corner rectangles `rect[i]` followed by the inner and the
outer stroke region, as paintWindow computes them for a frame. -/
def tightPieces (s : LightlyShadersEffect) (geo : QRect) : List QRegion :=
  let rect := paintRect s.m_size s.m_corner geo
  Corner.all.map (fun i => QRegion.ofRect (rect.get i))
    ++ [outlineRegion geo rect, borderlineRegion geo rect]

/-- Corner tiling exactness as the specification words it: the padded corner
rectangles and the two stroke regions are pairwise disjoint and their union
is exactly the border ring. -/
def PaddedTilingAsStated (s : LightlyShadersEffect) (geo : QRect) : Prop :=
  (paddedPieces s geo).Pairwise RegionsDisjoint
    ∧ ∀ px py : Int, coveredBy (paddedPieces s geo) px py = (borderRing geo).contains px py

/-- The shell identifiers of the window filter. -/
def shellIdentifiers : List String := ["plasma", "krunner", "latte-dock", "lattedock"]

/-- The class contains, case-insensitively, one of the shell identifiers. -/
def matchesShellIdentifier (cls : String) : Bool :=
  shellIdentifiers.any fun name => containsCI cls name

/-- Rules (1), (2), (3) and (5) of the window filter, which the
specification and the code word alike. -/
def excludedByCommonRules (managed : List Nat) (w : EffectWindow) : Bool :=
  managed.contains w.ptr
    || (w.windowType == WindowType.OnScreenDisplay || w.windowType == WindowType.Dock
        || w.windowType == WindowType.Menu || w.windowType == WindowType.DropdownMenu)
    || (!w.hasDecoration && matchesShellIdentifier w.windowClass)
    || (!w.isPaintingEnabled || w.isDesktop || w.isPopupMenu)

/-- The exclusion rules as the specification words them: rule (4) applies to
a class that contains any shell identifier. -/
def excludedAsStated (managed : List Nat) (w : EffectWindow) : Bool :=
  excludedByCommonRules managed w
    || (matchesShellIdentifier w.windowClass && !w.isNormalWindow && !w.isDialog && !w.isModal)

/-- The exclusion rules with rule (4) restricted to the identifier plasma. -/
def excludedPlasmaOnly (managed : List Nat) (w : EffectWindow) : Bool :=
  excludedByCommonRules managed w
    || (containsCI w.windowClass "plasma" && !w.isNormalWindow && !w.isDialog && !w.isModal)

/-- The integer nearest to percent * 255 / 100 (halves rounded up), the
`round(percent * 2.55)` of the specification. -/
def roundedAlphaAsStated (percent : Int) : Int := (percent * 255 + 50) / 100

/-- The corner offset table as the specification words it: size
(radius+1) x (radius+1), TopLeft at frame.topLeft, TopRight at frame.topRight
shifted left by radius-1, BottomRight at frame.bottomRight shifted left and up
by radius-1, BottomLeft at frame.bottomLeft shifted up by radius-1. -/
def cornerTableAsStated (radius : Int) (geo : QRect) : CornerSet QRect :=
  { topLeft := QRect.ofPointSize geo.topLeft ⟨radius + 1, radius + 1⟩
    topRight := QRect.ofPointSize (geo.topRight - ⟨radius - 1, 0⟩) ⟨radius + 1, radius + 1⟩
    bottomRight :=
      QRect.ofPointSize (geo.bottomRight - ⟨radius - 1, radius - 1⟩) ⟨radius + 1, radius + 1⟩
    bottomLeft := QRect.ofPointSize (geo.bottomLeft - ⟨0, radius - 1⟩) ⟨radius + 1, radius + 1⟩ }

/-- The expanded geometry covers the frame geometry (the host builds it by
adding the shadow to the frame). -/
def coversFrame (w : EffectWindow) : Prop :=
  w.expandedGeometry.x1 ≤ w.frameGeometry.x1 ∧ w.frameGeometry.x2 ≤ w.expandedGeometry.x2
    ∧ w.expandedGeometry.y1 ≤ w.frameGeometry.y1 ∧ w.frameGeometry.y2 ≤ w.expandedGeometry.y2

/-! ## Concrete inputs used in the worked examples -/

/-- A configuration file without any key: every entry takes its default
(alpha 15, outline off, light theme, roundness 5). -/
def defaultConf : KConfigGroup := ⟨none, none, none, none, none⟩

/-- The configuration roundness 5, alpha 15 percent, outline on. -/
def outlineConf : KConfigGroup := ⟨some 15, some true, none, none, some 5⟩

/-- The configuration of `outlineConf` with disabled_for_maximized switched on. -/
def suppressingConf : KConfigGroup := ⟨some 15, some true, none, some true, some 5⟩

/-- The frame rectangle (100, 100, 400, 300). -/
def exampleFrame : QRect := QRect.ofXYWH 100 100 400 300

/-- The frame rectangle grown by 10 pixels on each side. -/
def exampleExpanded : QRect := QRect.ofXYWH 90 90 420 320

/-- A decorated normal window with frame (100, 100, 400, 300) and a shadow
of 10 pixels on each side. -/
def exampleWindow : EffectWindow :=
  { ptr := 7, windowType := WindowType.Normal, windowClass := "dolphin org.kde.dolphin",
    hasDecoration := true, isNormalWindow := true, isDialog := false, isModal := false,
    isPaintingEnabled := true, isDesktop := false, isPopupMenu := false,
    geometry := exampleFrame, frameGeometry := exampleFrame,
    expandedGeometry := exampleExpanded }

/-- A decorated utility window of class krunner: not a normal window, not a
dialog, not modal. -/
def krunnerUtilityWindow : EffectWindow :=
  { exampleWindow with ptr := 8, windowType := WindowType.Utility,
                       windowClass := "krunner krunner", isNormalWindow := false }

/-- The effect after construction with `outlineConf` and a valid shader, with
`exampleWindow` announced and tracked. -/
def exampleEffect : LightlyShadersEffect :=
  windowAdded (construct outlineConf true) exampleWindow

/-- Paint data of an untransformed, fully opaque paint. -/
def examplePaintData : WindowPaintData :=
  { opacity := 1, brightness := 1, crossFadeProgress := 1,
    screenProjectionMatrix := ⟨0, 0, 0⟩ }

/-- A host with a 1920 x 1080 virtual screen and no full-screen effect. -/
def exampleHost : Host := ⟨false, QRect.ofXYWH 0 0 1920 1080⟩

/-! ## Interleaved reconfigure and maximize events -/

/-- One host callback that touches the suppression state: `reconfigure` with
the configuration then on file, or `windowMaximizedStateChanged`. -/
inductive EffectEvent where
  | reconfigured (conf : KConfigGroup)
  | maximizedStateChanged (w : Nat) (horizontal vertical : Bool)
deriving DecidableEq, Repr

/-- Delivery of one callback to the effect. -/
def deliver (s : LightlyShadersEffect) : EffectEvent → LightlyShadersEffect
  | EffectEvent.reconfigured conf => reconfigure s conf
  | EffectEvent.maximizedStateChanged w horizontal vertical =>
      windowMaximizedStateChanged s w horizontal vertical

/-- Delivery of an interleaving of reconfigure and maximize callbacks, oldest
first. -/
def runEvents (s : LightlyShadersEffect) (evs : List EffectEvent) : LightlyShadersEffect :=
  evs.foldl deliver s

/-- Suppression requires the option, as the specification words it: if some
window is maximize-suppressed then disabled_for_maximized is enabled. -/
def SuppressionRequiresOption (s : LightlyShadersEffect) : Prop :=
  ∀ w : Nat, suppressed s w = true → s.m_disabled_for_maximized = true

/-- The effect constructed with disabled_for_maximized on and a valid shader,
with `exampleWindow` (pointer 7) announced and tracked. -/
def suppressingEffect : LightlyShadersEffect :=
  windowAdded (construct suppressingConf true) exampleWindow

/-- Window 7 maximizes on both axes, then the option is switched off in the
configuration file and reconfigure runs (`outlineConf` has no
disabled_for_maximized key, so the default, off, is read). -/
def switchOffWhileMaximized : List EffectEvent :=
  [EffectEvent.maximizedStateChanged 7 true true, EffectEvent.reconfigured outlineConf]

/-! ## Membership lemmas for rectangles and regions -/

theorem setRoundness_m_size (s : LightlyShadersEffect) (r : Int) :
    (setRoundness s r).m_size = r := rfl

theorem setRoundness_m_corner (s : LightlyShadersEffect) (r : Int) :
    (setRoundness s r).m_corner = cornerSize r := rfl

theorem QPoint.sub_x (a b : QPoint) : (a - b).x = a.x - b.x := rfl
theorem QPoint.sub_y (a b : QPoint) : (a - b).y = a.y - b.y := rfl

theorem QRect.contains_iff (r : QRect) (px py : Int) :
    r.contains px py = true ↔ r.x1 ≤ px ∧ px ≤ r.x2 ∧ r.y1 ≤ py ∧ py ≤ r.y2 := by
  simp [QRect.contains, and_assoc]

theorem ofRect_contains_iff (r : QRect) (px py : Int) :
    (QRegion.ofRect r).contains px py = true ↔ r.x1 ≤ px ∧ px ≤ r.x2 ∧ r.y1 ≤ py ∧ py ≤ r.y2 :=
  QRect.contains_iff r px py

theorem sub_contains_iff (a b : QRegion) (px py : Int) :
    (a.sub b).contains px py = true ↔ a.contains px py = true ∧ ¬ b.contains px py = true := by
  simp [QRegion.sub]

theorem subCorners_contains_iff (reg : QRegion) (rect : CornerSet QRect) (px py : Int) :
    (subCorners reg rect).contains px py = true ↔
      reg.contains px py = true ∧ ¬ rect.topLeft.contains px py = true
        ∧ ¬ rect.topRight.contains px py = true ∧ ¬ rect.bottomRight.contains px py = true
        ∧ ¬ rect.bottomLeft.contains px py = true := by
  simp [subCorners, Corner.all, QRegion.subRect, QRegion.sub, QRegion.ofRect, CornerSet.get,
    and_assoc]

theorem outlineRegion_contains_iff (geo : QRect) (rect : CornerSet QRect) (px py : Int) :
    (outlineRegion geo rect).contains px py = true ↔
      (geo.contains px py = true ∧ ¬ (geo.adjusted 1 1 (-1) (-1)).contains px py = true)
        ∧ ¬ rect.topLeft.contains px py = true
        ∧ ¬ rect.topRight.contains px py = true ∧ ¬ rect.bottomRight.contains px py = true
        ∧ ¬ rect.bottomLeft.contains px py = true := by
  rw [outlineRegion, subCorners_contains_iff, sub_contains_iff]; rfl

theorem borderlineRegion_contains_iff (geo : QRect) (rect : CornerSet QRect) (px py : Int) :
    (borderlineRegion geo rect).contains px py = true ↔
      ((geo.adjusted (-1) (-1) 1 1).contains px py = true ∧ ¬ geo.contains px py = true)
        ∧ ¬ rect.topLeft.contains px py = true
        ∧ ¬ rect.topRight.contains px py = true ∧ ¬ rect.bottomRight.contains px py = true
        ∧ ¬ rect.bottomLeft.contains px py = true := by
  rw [borderlineRegion, subCorners_contains_iff, sub_contains_iff]; rfl

theorem borderRing_contains_iff (geo : QRect) (px py : Int) :
    (borderRing geo).contains px py = true ↔
      (geo.adjusted (-1) (-1) 1 1).contains px py = true
        ∧ ¬ (geo.adjusted 1 1 (-1) (-1)).contains px py = true := by
  rw [borderRing, sub_contains_iff]; rfl


theorem coverCount_le_one (l : List QRegion) (px py : Int) (h : l.Pairwise RegionsDisjoint) :
    coverCount l px py ≤ 1 := by
  induction l with
  | nil => simp [coverCount]
  | cons a l ih =>
    rw [List.pairwise_cons] at h
    have ih1 := ih h.2
    unfold coverCount at ih1 ⊢
    by_cases ha : a.contains px py = true
    · have h0 : List.countP (fun p => p.contains px py) l = 0 := by
        rw [List.countP_eq_zero]
        intro b hb hc
        exact h.1 b hb px py ⟨ha, hc⟩
      rw [List.countP_cons, h0]; simp [ha]
    · rw [List.countP_cons]; simpa [ha] using ih1

theorem coverCount_pos (l : List QRegion) (px py : Int) (h : coveredBy l px py = true) :
    0 < coverCount l px py := by
  unfold coveredBy at h
  unfold coverCount
  rw [List.any_eq_true] at h
  rw [List.countP_pos_iff]
  exact h

theorem coverCount_eq_one (l : List QRegion) (px py : Int) (h : l.Pairwise RegionsDisjoint)
    (hc : coveredBy l px py = true) : coverCount l px py = 1 :=
  Nat.le_antisymm (coverCount_le_one l px py h) (coverCount_pos l px py hc)

theorem tightPieces_pairwise (s0 : LightlyShadersEffect) (r : Int) (geo : QRect)
    (hw : 2 * (r + 2) ≤ geo.width) (hh : 2 * (r + 2) ≤ geo.height) :
    (tightPieces (setRoundness s0 r) geo).Pairwise RegionsDisjoint := by
  obtain ⟨x1, y1, x2, y2⟩ := geo
  simp only [QRect.width, QRect.height] at hw hh
  simp only [tightPieces, setRoundness_m_size, setRoundness_m_corner, Corner.all, List.map,
      List.cons_append, List.nil_append, List.pairwise_cons, List.mem_cons, List.mem_singleton,
      List.not_mem_nil, forall_eq_or_imp, forall_eq, CornerSet.get, List.Pairwise.nil,
      RegionsDisjoint, outlineRegion_contains_iff, borderlineRegion_contains_iff,
      ofRect_contains_iff, QRect.contains_iff, false_imp_iff, implies_true, and_true,
      paintRect, QRect.ofPointSize, QRect.adjusted, cornerSize, QRect.topLeft, QRect.topRight,
      QRect.bottomLeft, QRect.bottomRight, QPoint.sub_x, QPoint.sub_y]
  repeat' apply And.intro
  all_goals (intro px py; omega)

theorem tightPieces_cover (s0 : LightlyShadersEffect) (r : Int) (geo : QRect) (px py : Int)
    (h : (borderRing geo).contains px py = true) :
    coveredBy (tightPieces (setRoundness s0 r) geo) px py = true := by
  obtain ⟨x1, y1, x2, y2⟩ := geo
  revert h
  simp only [coveredBy, tightPieces, setRoundness_m_size, setRoundness_m_corner, Corner.all,
      List.map, List.cons_append, List.nil_append, List.any_cons, List.any_nil, Bool.or_false,
      Bool.or_eq_true, CornerSet.get, borderRing_contains_iff,
      outlineRegion_contains_iff, borderlineRegion_contains_iff,
      ofRect_contains_iff, QRect.contains_iff,
      paintRect, QRect.ofPointSize, QRect.adjusted, cornerSize, QRect.topLeft, QRect.topRight,
      QRect.bottomLeft, QRect.bottomRight, QPoint.sub_x, QPoint.sub_y]
  omega

theorem paddedPieces_pairwise (s0 : LightlyShadersEffect) (r : Int) (geo : QRect)
    (hw : 2 * (r + 2) ≤ geo.width) (hh : 2 * (r + 2) ≤ geo.height) :
    (paddedPieces (setRoundness s0 r) geo).Pairwise RegionsDisjoint := by
  obtain ⟨x1, y1, x2, y2⟩ := geo
  simp only [QRect.width, QRect.height] at hw hh
  simp only [paddedPieces, setRoundness_m_size, setRoundness_m_corner, Corner.all, List.map,
      List.cons_append, List.nil_append, List.pairwise_cons, List.mem_cons, List.mem_singleton,
      List.not_mem_nil, forall_eq_or_imp, forall_eq, CornerSet.get, List.Pairwise.nil,
      RegionsDisjoint, outlineRegion_contains_iff, borderlineRegion_contains_iff,
      ofRect_contains_iff, QRect.contains_iff, false_imp_iff, implies_true, and_true,
      paintRect, big_rect, QRect.ofPointSize, QRect.adjusted, cornerSize, QRect.topLeft,
      QRect.topRight, QRect.bottomLeft, QRect.bottomRight, QPoint.sub_x, QPoint.sub_y]
  repeat' apply And.intro
  all_goals (intro px py; omega)

theorem paddedPieces_cover (s0 : LightlyShadersEffect) (r : Int) (geo : QRect) (px py : Int)
    (h : (borderRing geo).contains px py = true) :
    coveredBy (paddedPieces (setRoundness s0 r) geo) px py = true := by
  obtain ⟨x1, y1, x2, y2⟩ := geo
  revert h
  simp only [coveredBy, paddedPieces, setRoundness_m_size, setRoundness_m_corner, Corner.all,
      List.map, List.cons_append, List.nil_append, List.any_cons, List.any_nil, Bool.or_false,
      Bool.or_eq_true, CornerSet.get, borderRing_contains_iff,
      outlineRegion_contains_iff, borderlineRegion_contains_iff,
      ofRect_contains_iff, QRect.contains_iff,
      paintRect, big_rect, QRect.ofPointSize, QRect.adjusted, cornerSize, QRect.topLeft,
      QRect.topRight, QRect.bottomLeft, QRect.bottomRight, QPoint.sub_x, QPoint.sub_y]
  omega

theorem exists_corner_iff (p : Corner → Prop) :
    (∃ i, p i) ↔ p Corner.TopLeft ∨ p Corner.TopRight ∨ p Corner.BottomRight
      ∨ p Corner.BottomLeft := by
  constructor
  · rintro ⟨i, hi⟩
    cases i
    · exact Or.inl hi
    · exact Or.inr (Or.inl hi)
    · exact Or.inr (Or.inr (Or.inl hi))
    · exact Or.inr (Or.inr (Or.inr hi))
  · rintro (h | h | h | h)
    · exact ⟨_, h⟩
    · exact ⟨_, h⟩
    · exact ⟨_, h⟩
    · exact ⟨_, h⟩

theorem outlineRegion_subset_ring (geo : QRect) (rect : CornerSet QRect) (px py : Int)
    (h : (outlineRegion geo rect).contains px py = true) :
    (borderRing geo).contains px py = true := by
  obtain ⟨x1, y1, x2, y2⟩ := geo
  revert h
  simp only [outlineRegion_contains_iff, borderRing_contains_iff, QRect.contains_iff,
    QRect.adjusted]
  omega

theorem borderlineRegion_subset_ring (geo : QRect) (rect : CornerSet QRect) (px py : Int)
    (h : (borderlineRegion geo rect).contains px py = true) :
    (borderRing geo).contains px py = true := by
  obtain ⟨x1, y1, x2, y2⟩ := geo
  revert h
  simp only [borderlineRegion_contains_iff, borderRing_contains_iff, QRect.contains_iff,
    QRect.adjusted]
  omega

theorem coveredBy_paddedPieces_iff (s : LightlyShadersEffect) (geo : QRect) (px py : Int) :
    coveredBy (paddedPieces s geo) px py = true
      ↔ (∃ i : Corner, ((big_rect s.m_size geo).get i).contains px py = true)
        ∨ (outlineRegion geo (paintRect s.m_size s.m_corner geo)).contains px py = true
        ∨ (borderlineRegion geo (paintRect s.m_size s.m_corner geo)).contains px py = true := by
  simp only [exists_corner_iff, coveredBy, paddedPieces, Corner.all, List.map,
    List.cons_append, List.nil_append, List.any_cons, List.any_nil, Bool.or_false,
    Bool.or_eq_true, QRegion.ofRect]
  tauto

theorem paddedPieces_union (s0 : LightlyShadersEffect) (r : Int) (geo : QRect) (px py : Int) :
    coveredBy (paddedPieces (setRoundness s0 r) geo) px py = true
      ↔ (borderRing geo).contains px py = true
        ∨ ∃ i : Corner, ((big_rect (setRoundness s0 r).m_size geo).get i).contains px py = true := by
  constructor
  · intro h
    rcases (coveredBy_paddedPieces_iff _ geo px py).1 h with hc | ho | hb
    · exact Or.inr hc
    · exact Or.inl (outlineRegion_subset_ring geo _ px py ho)
    · exact Or.inl (borderlineRegion_subset_ring geo _ px py hb)
  · rintro (hring | hc)
    · exact paddedPieces_cover s0 r geo px py hring
    · exact (coveredBy_paddedPieces_iff _ geo px py).2 (Or.inl hc)

theorem paddedPieces_outside_ring (s0 : LightlyShadersEffect) (r : Int) (geo : QRect)
    (hr : 0 ≤ r) :
    coveredBy (paddedPieces (setRoundness s0 r) geo) (geo.x - 2) (geo.y - 2) = true
      ∧ (borderRing geo).contains (geo.x - 2) (geo.y - 2) = false := by
  obtain ⟨x1, y1, x2, y2⟩ := geo
  constructor
  · simp only [coveredBy, paddedPieces, setRoundness_m_size,
      setRoundness_m_corner, Corner.all,
      List.map, List.cons_append, List.nil_append, List.any_cons, List.any_nil, Bool.or_false,
      Bool.or_eq_true, CornerSet.get,
      outlineRegion_contains_iff, borderlineRegion_contains_iff,
      ofRect_contains_iff, QRect.contains_iff, QRect.x, QRect.y,
      paintRect, big_rect, QRect.ofPointSize, QRect.adjusted, cornerSize, QRect.topLeft,
      QRect.topRight, QRect.bottomLeft, QRect.bottomRight, QPoint.sub_x, QPoint.sub_y]
    omega
  · rw [Bool.eq_false_iff]
    intro h
    revert h
    simp only [borderRing_contains_iff, QRect.contains_iff, QRect.adjusted, QRect.x, QRect.y]
    omega

/-! ## Corner tiling (C1, C2) -/

/-- C1, as the specification words it, fails: for radius 5 and the frame
(100, 100, 400, 300) the padded top-left corner rectangle covers the pixel
(98, 98), which lies outside the border ring, so the union of the padded
corner rectangles and the stroke regions is not the ring. -/
theorem padded_tiling_not_exact :
    (0 : Int) ≤ 5 ∧ 2 * (5 + 2) ≤ exampleFrame.width ∧ 2 * (5 + 2) ≤ exampleFrame.height
      ∧ ¬ PaddedTilingAsStated (setRoundness exampleEffect 5) exampleFrame := by
  refine ⟨by decide, by decide, by decide, ?_⟩
  intro h
  have h1 := h.2 98 98
  revert h1
  decide

/-- C1, amended: for every radius r >= 0 and every frame at least 2*(r+2)
wide and high, the four padded corner rectangles, the inner stroke region and
the outer stroke region of paintWindow are pairwise disjoint; both stroke
regions lie inside the border ring; every pixel of the border ring lies in
exactly one of the six sets; and the union of the six sets is exactly the
border ring together with the four padded corner rectangles. The padded
corner rectangles reach outside the ring (the pixel two to the left of and
two above the frame origin is covered and is not in the ring), so the union
contains the ring and is not equal to it. -/
theorem padded_corner_tiling (s0 : LightlyShadersEffect) (r : Int) (geo : QRect)
    (hr : 0 ≤ r) (hw : 2 * (r + 2) ≤ geo.width) (hh : 2 * (r + 2) ≤ geo.height) :
    (paddedPieces (setRoundness s0 r) geo).Pairwise RegionsDisjoint
      ∧ (∀ px py : Int,
          (outlineRegion geo
              (paintRect (setRoundness s0 r).m_size (setRoundness s0 r).m_corner geo)).contains
              px py = true →
            (borderRing geo).contains px py = true)
      ∧ (∀ px py : Int,
          (borderlineRegion geo
              (paintRect (setRoundness s0 r).m_size (setRoundness s0 r).m_corner geo)).contains
              px py = true →
            (borderRing geo).contains px py = true)
      ∧ (∀ px py : Int, (borderRing geo).contains px py = true →
          coverCount (paddedPieces (setRoundness s0 r) geo) px py = 1)
      ∧ (∀ px py : Int,
          coveredBy (paddedPieces (setRoundness s0 r) geo) px py = true
            ↔ (borderRing geo).contains px py = true
              ∨ ∃ i : Corner,
                  ((big_rect (setRoundness s0 r).m_size geo).get i).contains px py = true)
      ∧ coveredBy (paddedPieces (setRoundness s0 r) geo) (geo.x - 2) (geo.y - 2) = true
      ∧ (borderRing geo).contains (geo.x - 2) (geo.y - 2) = false :=
  ⟨paddedPieces_pairwise s0 r geo hw hh,
    fun px py h => outlineRegion_subset_ring geo _ px py h,
    fun px py h => borderlineRegion_subset_ring geo _ px py h,
    fun px py h =>
      coverCount_eq_one _ px py (paddedPieces_pairwise s0 r geo hw hh)
        (paddedPieces_cover s0 r geo px py h),
    fun px py => paddedPieces_union s0 r geo px py,
    (paddedPieces_outside_ring s0 r geo hr).1,
    (paddedPieces_outside_ring s0 r geo hr).2⟩

/-- Worked instance of the amended C1: radius 5, frame (100, 100, 400, 300).
The ring pixel (99, 250) on the outer left edge lies in exactly one set, the
inner stroke pixel (100, 250) lies in the ring, and the pixel (98, 98) is
covered and outside the ring. -/
theorem padded_corner_tiling_witness :
    (0 : Int) ≤ 5 ∧ 2 * (5 + 2) ≤ exampleFrame.width ∧ 2 * (5 + 2) ≤ exampleFrame.height
      ∧ (borderRing exampleFrame).contains 99 250 = true
      ∧ (paddedPieces (setRoundness exampleEffect 5) exampleFrame).Pairwise RegionsDisjoint
      ∧ (borderRing exampleFrame).contains 100 250 = true
      ∧ coverCount (paddedPieces (setRoundness exampleEffect 5) exampleFrame) 99 250 = 1
      ∧ coveredBy (paddedPieces (setRoundness exampleEffect 5) exampleFrame)
          (exampleFrame.x - 2) (exampleFrame.y - 2) = true
      ∧ (borderRing exampleFrame).contains (exampleFrame.x - 2) (exampleFrame.y - 2) = false :=
  ⟨by decide, by decide, by decide, by decide,
    (padded_corner_tiling exampleEffect 5 exampleFrame (by decide) (by decide) (by decide)).1,
    (padded_corner_tiling exampleEffect 5 exampleFrame (by decide) (by decide)
      (by decide)).2.1 100 250 (by decide),
    (padded_corner_tiling exampleEffect 5 exampleFrame (by decide) (by decide)
      (by decide)).2.2.2.1 99 250 (by decide),
    (padded_corner_tiling exampleEffect 5 exampleFrame (by decide) (by decide)
      (by decide)).2.2.2.2.2⟩

/-- C2: for every radius r >= 1 and every frame at least 2*(r+2) wide and
high, the inner stroke region, the outer stroke region and the four tight
corner rectangles `rect[0..3]` of paintWindow are pairwise disjoint, and every
pixel of the border ring lies in exactly one of these six sets. -/
theorem corner_rects_win (s0 : LightlyShadersEffect) (r : Int) (geo : QRect)
    (_hr : 1 ≤ r) (hw : 2 * (r + 2) ≤ geo.width) (hh : 2 * (r + 2) ≤ geo.height) :
    (tightPieces (setRoundness s0 r) geo).Pairwise RegionsDisjoint
      ∧ ∀ px py : Int, (borderRing geo).contains px py = true →
          coverCount (tightPieces (setRoundness s0 r) geo) px py = 1 :=
  ⟨tightPieces_pairwise s0 r geo hw hh, fun px py h =>
    coverCount_eq_one _ px py (tightPieces_pairwise s0 r geo hw hh)
      (tightPieces_cover s0 r geo px py h)⟩

/-- Worked instance of C2: radius 5, frame (100, 100, 400, 300), ring pixel
(99, 99), the outer top-left corner pixel, which belongs to `rect[TopLeft]`. -/
theorem corner_rects_win_witness :
    (1 : Int) ≤ 5 ∧ 2 * (5 + 2) ≤ exampleFrame.width ∧ 2 * (5 + 2) ≤ exampleFrame.height
      ∧ (borderRing exampleFrame).contains 99 99 = true
      ∧ (tightPieces (setRoundness exampleEffect 5) exampleFrame).Pairwise RegionsDisjoint
      ∧ coverCount (tightPieces (setRoundness exampleEffect 5) exampleFrame) 99 99 = 1 :=
  ⟨by decide, by decide, by decide, by decide,
    (corner_rects_win exampleEffect 5 exampleFrame (by decide) (by decide) (by decide)).1,
    (corner_rects_win exampleEffect 5 exampleFrame (by decide) (by decide) (by decide)).2
      99 99 (by decide)⟩

/-! ## Maximize suppression (C3) -/

theorem runMaximizeEvents_concat (s : LightlyShadersEffect) (l : List MaximizeEvent)
    (e : MaximizeEvent) :
    runMaximizeEvents s (l ++ [e])
      = windowMaximizedStateChanged (runMaximizeEvents s l) e.w e.horizontal e.vertical := by
  simp [runMaximizeEvents, List.foldl_append]

theorem windowMaximizedStateChanged_flag (s : LightlyShadersEffect) (w : Nat) (h v : Bool) :
    (windowMaximizedStateChanged s w h v).m_disabled_for_maximized
      = s.m_disabled_for_maximized := by
  unfold windowMaximizedStateChanged
  split
  · rfl
  · split <;> rfl

theorem runMaximizeEvents_flag (s : LightlyShadersEffect) (evs : List MaximizeEvent) :
    (runMaximizeEvents s evs).m_disabled_for_maximized = s.m_disabled_for_maximized := by
  induction evs generalizing s with
  | nil => rfl
  | cons e l ih =>
    show (runMaximizeEvents (windowMaximizedStateChanged s e.w e.horizontal e.vertical) l).m_disabled_for_maximized = _
    rw [ih, windowMaximizedStateChanged_flag]

theorem runMaximizeEvents_off (s : LightlyShadersEffect) (evs : List MaximizeEvent)
    (hoff : s.m_disabled_for_maximized = false) :
    runMaximizeEvents s evs = s := by
  induction evs generalizing s with
  | nil => rfl
  | cons e l ih =>
    show runMaximizeEvents (windowMaximizedStateChanged s e.w e.horizontal e.vertical) l = s
    have h1 : windowMaximizedStateChanged s e.w e.horizontal e.vertical = s := by
      simp [windowMaximizedStateChanged, hoff]
    rw [h1]
    exact ih s hoff

theorem lastBothMaximized_concat (l : List MaximizeEvent) (e : MaximizeEvent) :
    lastBothMaximized (l ++ [e])
      = if (e.horizontal && e.vertical) = true then some e.w else lastBothMaximized l := by
  unfold lastBothMaximized
  rw [List.reverse_append, List.reverse_singleton, List.singleton_append, List.find?_cons]
  cases hb : (e.horizontal && e.vertical) <;> simp

theorem suppressed_iff (s : LightlyShadersEffect) (w : Nat) :
    suppressed s w = true ↔ s.m_applyEffect = some w := by
  unfold suppressed
  constructor
  · intro h
    exact (eq_of_beq h).symm
  · intro h
    rw [h]
    exact beq_self_eq_true _

theorem applyEffect_is_last (s0 : LightlyShadersEffect) (evs : List MaximizeEvent) (w : Nat)
    (h0 : s0.m_applyEffect = none)
    (h : (runMaximizeEvents s0 evs).m_applyEffect = some w) :
    lastBothMaximized evs = some w := by
  cases hflag : s0.m_disabled_for_maximized with
  | false =>
    rw [runMaximizeEvents_off s0 evs hflag, h0] at h
    cases h
  | true =>
    rcases List.eq_nil_or_concat evs with rfl | ⟨l, e, rfl⟩
    · rw [show runMaximizeEvents s0 [] = s0 from rfl, h0] at h
      cases h
    · rw [List.concat_eq_append] at h ⊢
      rw [runMaximizeEvents_concat] at h
      have hf : (runMaximizeEvents s0 l).m_disabled_for_maximized = true := by
        rw [runMaximizeEvents_flag, hflag]
      rw [lastBothMaximized_concat]
      unfold windowMaximizedStateChanged at h
      simp only [hf, Bool.not_true, Bool.false_eq_true, if_false] at h
      cases hh : e.horizontal <;> cases hv : e.vertical <;> simp [hh, hv] at h ⊢
      exact h

/-- C3: starting from a state with no suppressed window, after each event of
every finite sequence of windowMaximizedStateChanged notifications (the first
n events, for every n) at most one window is suppressed, and a suppressed
window is the window of the most recent event so far that reported
horizontal = true and vertical = true. -/
theorem maximize_suppression_exclusive (s0 : LightlyShadersEffect) (evs : List MaximizeEvent)
    (n : Nat) (h0 : s0.m_applyEffect = none) :
    (∀ w1 w2 : Nat, suppressed (runMaximizeEvents s0 (evs.take n)) w1 = true →
        suppressed (runMaximizeEvents s0 (evs.take n)) w2 = true → w1 = w2)
      ∧ ∀ w : Nat, suppressed (runMaximizeEvents s0 (evs.take n)) w = true →
          lastBothMaximized (evs.take n) = some w := by
  refine ⟨?_, ?_⟩
  · intro w1 w2 h1 h2
    rw [suppressed_iff] at h1 h2
    rw [h1] at h2
    exact Option.some.inj h2
  · intro w h
    rw [suppressed_iff] at h
    exact applyEffect_is_last s0 (evs.take n) w h0 h

/-- Worked instance of C3: with suppression switched on, window 7 maximizes on
both axes, window 8 maximizes horizontally only, window 9 maximizes on both
axes, window 7 restores; after the first three events window 9 is suppressed
and it is the most recent window that reported both axes. -/
theorem maximize_suppression_exclusive_witness :
    (construct suppressingConf true).m_applyEffect = none
      ∧ suppressed (runMaximizeEvents (construct suppressingConf true)
          (List.take 3 [⟨7, true, true⟩, ⟨8, true, false⟩, ⟨9, true, true⟩, ⟨7, false, false⟩]))
          9 = true
      ∧ lastBothMaximized
          (List.take 3 [⟨7, true, true⟩, ⟨8, true, false⟩, ⟨9, true, true⟩, ⟨7, false, false⟩])
          = some 9 :=
  ⟨by decide, by decide,
    (maximize_suppression_exclusive (construct suppressingConf true)
      [⟨7, true, true⟩, ⟨8, true, false⟩, ⟨9, true, true⟩, ⟨7, false, false⟩] 3
      (by decide)).2 9 (by decide)⟩

/-! ## Window filter (C4) -/

theorem windowAdded_eq (s : LightlyShadersEffect) (w : EffectWindow) :
    windowAdded s w
      = if excludedPlasmaOnly s.m_managed w = true then s
        else { s with m_managed := s.m_managed ++ [w.ptr] } := by
  unfold windowAdded excludedPlasmaOnly excludedByCommonRules matchesShellIdentifier
    shellIdentifiers
  simp only [List.any_cons, List.any_nil, Bool.or_false]
  by_cases h1 : (s.m_managed.contains w.ptr
      || w.windowType == WindowType.OnScreenDisplay
      || w.windowType == WindowType.Dock
      || w.windowType == WindowType.Menu
      || w.windowType == WindowType.DropdownMenu) = true
  · rw [if_pos h1, if_pos]
    simp only [Bool.or_eq_true] at h1 ⊢
    tauto
  · rw [if_neg h1]
    by_cases h2 : (!w.hasDecoration && (containsCI w.windowClass "plasma"
        || containsCI w.windowClass "krunner"
        || containsCI w.windowClass "latte-dock"
        || containsCI w.windowClass "lattedock")) = true
    · rw [if_pos h2, if_pos]
      simp only [Bool.or_eq_true, Bool.and_eq_true] at h2 ⊢
      tauto
    · rw [if_neg h2]
      by_cases h3 : (containsCI w.windowClass "plasma" && !w.isNormalWindow && !w.isDialog
          && !w.isModal) = true
      · rw [if_pos h3, if_pos]
        simp only [Bool.or_eq_true] at h3 ⊢
        tauto
      · rw [if_neg h3]
        by_cases h4 : (!w.isPaintingEnabled || w.isDesktop || w.isPopupMenu) = true
        · rw [if_pos h4, if_pos]
          simp only [Bool.or_eq_true] at h4 ⊢
          tauto
        · rw [if_neg h4, if_neg]
          simp only [Bool.or_eq_true, Bool.and_eq_true] at h1 h2 h3 h4 ⊢
          tauto

theorem windowAdded_nodup (s : LightlyShadersEffect) (w : EffectWindow)
    (h : s.m_managed.Nodup) : (windowAdded s w).m_managed.Nodup := by
  rw [windowAdded_eq]
  split
  · exact h
  · rename_i hex
    have hnot : ¬ w.ptr ∈ s.m_managed := by
      intro hmem
      apply hex
      simp [excludedPlasmaOnly, excludedByCommonRules, hmem]
    show (s.m_managed ++ [w.ptr]).Nodup
    rw [List.nodup_append]
    refine ⟨h, List.nodup_singleton _, ?_⟩
    intro a ha hb
    rw [List.mem_singleton] at hb
    subst hb
    exact hnot ha

/-- C4, as the specification words it, fails: a decorated utility window of
class krunner (not normal, not a dialog, not modal) matches rule (4) as
worded, yet windowAdded appends it to the tracked set. -/
theorem window_filter_not_as_stated :
    ¬ ((windowAdded exampleEffect krunnerUtilityWindow).m_managed
          = exampleEffect.m_managed ++ [krunnerUtilityWindow.ptr]
        ↔ excludedAsStated exampleEffect.m_managed krunnerUtilityWindow = false) := by
  decide

/-- C4, amended: windowAdded(w) appends w once to the tracked set if and only
if none of the exclusion rules holds, where rules (1), (2), (3) and (5) are as
worded and rule (4) reads: the class of w contains plasma (case-insensitively)
and w is not a normal window, not a dialog and not modal; otherwise the effect
is left unchanged. A second call on the same window changes nothing, and a
tracked set without duplicates stays without duplicates when the same window
is announced again. -/
theorem window_filter_characterisation (s : LightlyShadersEffect) (w : EffectWindow) :
    ((windowAdded s w).m_managed = s.m_managed ++ [w.ptr]
        ↔ excludedPlasmaOnly s.m_managed w = false)
      ∧ (excludedPlasmaOnly s.m_managed w = true → windowAdded s w = s)
      ∧ (excludedPlasmaOnly s.m_managed w = false →
          windowAdded s w = { s with m_managed := s.m_managed ++ [w.ptr] })
      ∧ windowAdded (windowAdded s w) w = windowAdded s w
      ∧ (∀ w2 : EffectWindow, w2.ptr = w.ptr → s.m_managed.Nodup →
          (windowAdded (windowAdded s w) w2).m_managed.Nodup) := by
  refine ⟨?_, ?_, ?_, ?_, ?_⟩
  · rw [windowAdded_eq]
    cases hex : excludedPlasmaOnly s.m_managed w <;> simp
  · intro hex
    rw [windowAdded_eq, if_pos hex]
  · intro hex
    rw [windowAdded_eq, if_neg (by simp [hex])]
  · rw [windowAdded_eq s w]
    cases hex : excludedPlasmaOnly s.m_managed w
    · rw [if_neg (by simp), windowAdded_eq, if_pos]
      simp [excludedPlasmaOnly, excludedByCommonRules]
    · rw [if_pos rfl, windowAdded_eq, if_pos hex]
  · intro w2 _ hnd
    exact windowAdded_nodup _ w2 (windowAdded_nodup s w hnd)

/-- Worked instance of the amended C4: `exampleWindow` is announced to a
freshly constructed effect (tracked set empty, hence without duplicates) twice;
it is tracked once. -/
theorem window_filter_characterisation_witness :
    excludedPlasmaOnly (construct outlineConf true).m_managed exampleWindow = false
      ∧ (construct outlineConf true).m_managed.Nodup
      ∧ (windowAdded (construct outlineConf true) exampleWindow).m_managed = [7]
      ∧ (windowAdded (windowAdded (construct outlineConf true) exampleWindow)
          exampleWindow).m_managed.Nodup :=
  ⟨by decide, by decide, by decide,
    (window_filter_characterisation (construct outlineConf true) exampleWindow).2.2.2.2
      exampleWindow rfl (by decide)⟩

/-! ## Paint gate, regeneration, close handler, alpha (C5 - C8) -/

/-- C5: when the shader is invalid, or the window is not tracked, not
paintable, the desktop, without shadow, the maximize-suppressed window, or a
full-screen effect is active, paintWindow makes exactly one call, the host
paintWindow with the unchanged (w, mask, region, data), and so no framebuffer
capture, no texture bind and no draw. -/
theorem paint_gate_delegates (s : LightlyShadersEffect) (host : Host) (w : EffectWindow)
    (mask : Nat) (region : QRegion) (data : WindowPaintData)
    (h : s.m_shaderValid = false ∨ s.m_managed.contains w.ptr = false
      ∨ w.isPaintingEnabled = false ∨ w.isDesktop = true ∨ hasShadow w = false
      ∨ s.m_applyEffect = some w.ptr ∨ host.hasActiveFullScreenEffect = true) :
    paintWindow s host w mask region data = [GLCall.hostPaintWindow w mask region data]
      ∧ (paintWindow s host w mask region data).any
          (fun c => c.isCapture || c.isBind || c.isDraw) = false := by
  have hgate : (!s.m_shaderValid
      || !s.m_managed.contains w.ptr
      || !w.isPaintingEnabled
      || host.hasActiveFullScreenEffect
      || w.isDesktop
      || !hasShadow w
      || (some w.ptr == s.m_applyEffect)) = true := by
    rcases h with h | h | h | h | h | h | h <;> simp_all
  have heq : paintWindow s host w mask region data
      = [GLCall.hostPaintWindow w mask region data] := by
    unfold paintWindow
    rw [if_pos hgate]
  refine ⟨heq, ?_⟩
  rw [heq]
  rfl

/-- Worked instance of C5, the scenario of the specification: radius 5,
alpha 38 (15 percent), outline on, frame (100, 100, 400, 300), expanded
geometry 10 pixels larger on each side, the window tracked, the shader
invalid. -/
theorem paint_gate_delegates_witness :
    (windowAdded (construct outlineConf false) exampleWindow).m_shaderValid = false
      ∧ (windowAdded (construct outlineConf false) exampleWindow).m_size = 5
      ∧ (windowAdded (construct outlineConf false) exampleWindow).m_alpha = 38
      ∧ (windowAdded (construct outlineConf false) exampleWindow).m_outline = true
      ∧ (windowAdded (construct outlineConf false) exampleWindow).m_managed.contains
          exampleWindow.ptr = true
      ∧ hasShadow exampleWindow = true
      ∧ paintWindow (windowAdded (construct outlineConf false) exampleWindow) exampleHost
          exampleWindow 0 (QRegion.ofRect exampleExpanded) examplePaintData
          = [GLCall.hostPaintWindow exampleWindow 0 (QRegion.ofRect exampleExpanded)
              examplePaintData]
      ∧ (paintWindow (windowAdded (construct outlineConf false) exampleWindow) exampleHost
          exampleWindow 0 (QRegion.ofRect exampleExpanded) examplePaintData).any
          (fun c => c.isCapture || c.isBind || c.isDraw) = false :=
  ⟨by decide, by decide, by decide, by decide, by decide, by decide,
    paint_gate_delegates (windowAdded (construct outlineConf false) exampleWindow) exampleHost
      exampleWindow 0 (QRegion.ofRect exampleExpanded) examplePaintData (Or.inl (by decide))⟩

theorem reconfigure_m_alpha (s : LightlyShadersEffect) (conf : KConfigGroup) :
    (reconfigure s conf).m_alpha = alphaFromPercent (readEntry conf.alpha 15) := rfl

/-- C6: after every reconfigure, whatever sequence of reconfigure calls came
before it, the three cached corner sets are generated from the configuration
just read: the masks and the inner rings are cuts of side r+1 (with
m_corner = (r+1, r+1)), the outer rings are cuts of side r+2, the inner ring
is drawn with the newly derived alpha, the outer ring with alpha 240 when
dark_theme is set and with the newly derived alpha otherwise; and the three
sets do not depend on the state before the call. -/
theorem regeneration_atomic (s0 : LightlyShadersEffect) (confs : List KConfigGroup)
    (conf : KConfigGroup) (i : Corner) :
    (reconfigure (runReconfigures s0 confs) conf).m_size = readEntry conf.roundness 5
      ∧ (reconfigure (runReconfigures s0 confs) conf).m_corner
          = ⟨readEntry conf.roundness 5 + 1, readEntry conf.roundness 5 + 1⟩
      ∧ (reconfigure (runReconfigures s0 confs) conf).m_alpha
          = alphaFromPercent (readEntry conf.alpha 15)
      ∧ (∃ t, (reconfigure (runReconfigures s0 confs) conf).m_tex.get i = some t
          ∧ t.width = readEntry conf.roundness 5 + 1
          ∧ t.height = readEntry conf.roundness 5 + 1)
      ∧ (∃ t, (reconfigure (runReconfigures s0 confs) conf).m_rect.get i = some t
          ∧ t.width = readEntry conf.roundness 5 + 1
          ∧ t.height = readEntry conf.roundness 5 + 1
          ∧ t.ringAlpha = some (reconfigure (runReconfigures s0 confs) conf).m_alpha)
      ∧ (∃ t, (reconfigure (runReconfigures s0 confs) conf).m_dark_rect.get i = some t
          ∧ t.width = readEntry conf.roundness 5 + 2
          ∧ t.height = readEntry conf.roundness 5 + 2
          ∧ t.ringAlpha
              = some (if readEntry conf.dark_theme false = true then 240
                  else (reconfigure (runReconfigures s0 confs) conf).m_alpha))
      ∧ (∀ s1 : LightlyShadersEffect,
          (reconfigure (runReconfigures s0 confs) conf).m_tex = (reconfigure s1 conf).m_tex
          ∧ (reconfigure (runReconfigures s0 confs) conf).m_rect = (reconfigure s1 conf).m_rect
          ∧ (reconfigure (runReconfigures s0 confs) conf).m_dark_rect
              = (reconfigure s1 conf).m_dark_rect) := by
  generalize runReconfigures s0 confs = s
  refine ⟨rfl, rfl, rfl, ?_, ?_, ?_, fun s1 => ⟨rfl, rfl, rfl⟩⟩
  · cases i <;> exact ⟨_, rfl, rfl, rfl⟩
  · cases i <;> exact ⟨_, rfl, rfl, rfl, rfl⟩
  · cases i <;> refine ⟨_, rfl, rfl, rfl, ?_⟩ <;>
      cases hd : readEntry conf.dark_theme false <;>
      simp [reconfigure, setRoundness, genRect, genMasks, quadrants, QImage.copyTexture,
        GLTexture.ringAlpha, QImage.firstEllipseBrush, ringImage, hd, List.findSome?]

theorem onWindowClosed_eq (s : LightlyShadersEffect) (w : EffectWindow) :
    onWindowClosed s w = s := rfl

/-- C7, the code at the failing input: `exampleWindow` (pointer 7) is tracked
and the host reports it closed; the handler of line 121 casts `sender()`,
which is the effects handler, to an EffectWindow, obtains NULL and removes
nothing, so the window stays in the tracked set. -/
theorem window_closed_keeps_entry :
    exampleEffect.m_managed = [7]
      ∧ exampleWindow.ptr = 7
      ∧ (onWindowClosed exampleEffect exampleWindow).m_managed = [7]
      ∧ (windowClosedSlot exampleEffect (QObject.effectWindow exampleWindow.ptr)).m_managed
          = [] := by
  decide

/-- C8, as the specification words it, fails: for alpha = 1 percent
reconfigure stores 2 (the product 2.55 truncated), while the integer nearest
to 1 * 255 / 100 = 2.55 is 3. -/
theorem alpha_not_rounded :
    (0 : Int) ≤ 1 ∧ (1 : Int) ≤ 100
      ∧ (reconfigure exampleEffect ⟨some 1, none, none, none, none⟩).m_alpha = 2
      ∧ roundedAlphaAsStated 1 = 3
      ∧ (reconfigure exampleEffect ⟨some 1, none, none, none, none⟩).m_alpha
          ≠ roundedAlphaAsStated 1 := by
  decide

/-- C8, amended: for every integer percent in 0..100 read from the alpha key,
reconfigure sets m_alpha to int(percent * 2.55), the binary64 product
truncated toward zero: floor(percent * 255 / 100) for percent 0..99 and 254
for percent = 100 (the binary64 product 100 * 2.55 is just below 255); for
example 38 for the default 15. -/
theorem alpha_truncated (s : LightlyShadersEffect) (conf : KConfigGroup) (percent : Int)
    (hread : readEntry conf.alpha 15 = percent) (h0 : 0 ≤ percent) (h100 : percent ≤ 100) :
    (reconfigure s conf).m_alpha = if percent = 100 then 254 else percent * 255 / 100 := by
  rw [reconfigure_m_alpha, hread]
  interval_cases percent <;> decide

/-- Worked instance of the amended C8: the default 15 percent gives 38. -/
theorem alpha_truncated_witness :
    readEntry defaultConf.alpha 15 = 15 ∧ (0 : Int) ≤ 15 ∧ (15 : Int) ≤ 100
      ∧ (reconfigure exampleEffect defaultConf).m_alpha = 38 :=
  ⟨by decide, by decide, by decide,
    alpha_truncated exampleEffect defaultConf 15 (by decide) (by decide) (by decide)⟩

/-! ## Corner offset table (C9) -/

/-- C9, as the specification words it, fails: for radius 5 and the frame
(100, 100, 400, 300) paintWindow places `rect[TopLeft]` at (99, 99), one pixel
left of and above frame.topLeft = (100, 100); TopRight and BottomLeft are
shifted by one pixel as well. -/
theorem corner_table_not_as_stated :
    paintRect (setRoundness exampleEffect 5).m_size (setRoundness exampleEffect 5).m_corner
        exampleFrame ≠ cornerTableAsStated 5 exampleFrame
      ∧ (paintRect (setRoundness exampleEffect 5).m_size (setRoundness exampleEffect 5).m_corner
          exampleFrame).topLeft.topLeft = ⟨99, 99⟩
      ∧ (cornerTableAsStated 5 exampleFrame).topLeft.topLeft = ⟨100, 100⟩ := by
  decide

/-- C9, amended: for every frame and radius r, the four tight corner
rectangles of paintWindow each have size (r+1) x (r+1), with origins
TopLeft = frame.topLeft shifted left and up by 1, TopRight = frame.topRight
shifted left by r-1 and up by 1, BottomRight = frame.bottomRight shifted left
and up by r-1, BottomLeft = frame.bottomLeft shifted left by 1 and up by r-1;
in frame coordinates (x, y, w, h) the origins are (x-1, y-1), (x+w-r, y-1),
(x+w-r, y+h-r) and (x-1, y+h-r). -/
theorem paint_corner_table (s0 : LightlyShadersEffect) (r : Int) (geo : QRect) :
    (∀ i : Corner,
        ((paintRect (setRoundness s0 r).m_size (setRoundness s0 r).m_corner geo).get i).size
          = ⟨r + 1, r + 1⟩)
      ∧ (paintRect (setRoundness s0 r).m_size (setRoundness s0 r).m_corner geo).topLeft.topLeft
          = geo.topLeft - ⟨1, 1⟩
      ∧ (paintRect (setRoundness s0 r).m_size (setRoundness s0 r).m_corner geo).topRight.topLeft
          = geo.topRight - ⟨r - 1, 1⟩
      ∧ (paintRect (setRoundness s0 r).m_size (setRoundness s0 r).m_corner geo).bottomRight.topLeft
          = geo.bottomRight - ⟨r - 1, r - 1⟩
      ∧ (paintRect (setRoundness s0 r).m_size (setRoundness s0 r).m_corner geo).bottomLeft.topLeft
          = geo.bottomLeft - ⟨1, r - 1⟩
      ∧ paintRect (setRoundness s0 r).m_size (setRoundness s0 r).m_corner geo
          = { topLeft := QRect.ofXYWH (geo.x - 1) (geo.y - 1) (r + 1) (r + 1)
              topRight := QRect.ofXYWH (geo.x + geo.width - r) (geo.y - 1) (r + 1) (r + 1)
              bottomRight :=
                QRect.ofXYWH (geo.x + geo.width - r) (geo.y + geo.height - r) (r + 1) (r + 1)
              bottomLeft := QRect.ofXYWH (geo.x - 1) (geo.y + geo.height - r) (r + 1) (r + 1) } := by
  obtain ⟨x1, y1, x2, y2⟩ := geo
  refine ⟨?_, rfl, rfl, rfl, rfl, ?_⟩
  · intro i
    cases i <;>
      simp only [setRoundness_m_size, setRoundness_m_corner, paintRect, CornerSet.get,
        QRect.size, QRect.width, QRect.height, QRect.ofPointSize, cornerSize, QSize.mk.injEq,
        QRect.topLeft, QRect.topRight, QRect.bottomLeft, QRect.bottomRight, QPoint.sub_x,
        QPoint.sub_y] <;>
      constructor <;> omega
  · simp only [setRoundness_m_size, setRoundness_m_corner, paintRect, QRect.ofPointSize,
      QRect.ofXYWH, cornerSize, QRect.topLeft, QRect.topRight, QRect.bottomLeft,
      QRect.bottomRight, QPoint.sub_x, QPoint.sub_y, QRect.x, QRect.y, QRect.width,
      QRect.height, CornerSet.mk.injEq, QRect.mk.injEq]
    repeat' apply And.intro
    all_goals first | trivial | omega

/-! ## Shadow test (C10) -/

theorem hasShadow_eq_false_iff (w : EffectWindow) :
    hasShadow w = false ↔ w.expandedGeometry.size = w.frameGeometry.size := by
  unfold hasShadow
  by_cases h : w.expandedGeometry.size = w.frameGeometry.size
  · simp [h]
  · simp [h]

theorem hasShadow_eq_false_iff_of_covers (w : EffectWindow) (hc : coversFrame w) :
    hasShadow w = false ↔ w.expandedGeometry = w.frameGeometry := by
  rw [hasShadow_eq_false_iff]
  obtain ⟨h1, h2, h3, h4⟩ := hc
  constructor
  · intro hs
    have hw : w.expandedGeometry.width = w.frameGeometry.width := congrArg QSize.width hs
    have hh : w.expandedGeometry.height = w.frameGeometry.height := congrArg QSize.height hs
    cases he : w.expandedGeometry with
    | mk a1 b1 a2 b2 =>
      cases hf : w.frameGeometry with
      | mk c1 d1 c2 d2 =>
        rw [he, hf] at h1 h2 h3 h4 hw hh
        simp only [QRect.width, QRect.height] at h1 h2 h3 h4 hw hh
        have e1 : a1 = c1 := by omega
        have e2 : b1 = d1 := by omega
        have e3 : a2 = c2 := by omega
        have e4 : b2 = d2 := by omega
        rw [e1, e2, e3, e4]
  · intro he
    rw [he]

theorem paintWindow_of_open_gate (s : LightlyShadersEffect) (host : Host) (w : EffectWindow)
    (mask : Nat) (region : QRegion) (data : WindowPaintData)
    (hv : s.m_shaderValid = true) (hm : s.m_managed.contains w.ptr = true)
    (hp : w.isPaintingEnabled = true) (hf : host.hasActiveFullScreenEffect = false)
    (hd : w.isDesktop = false) (ha : s.m_applyEffect ≠ some w.ptr)
    (hsh : hasShadow w = true) :
    paintWindow s host w mask region data
      = getTexRegions host CapturePass.beforeWindow (big_rect s.m_size w.frameGeometry)
        ++ [GLCall.hostPaintWindow w mask region data]
        ++ getTexRegions host CapturePass.afterWindow (big_rect s.m_size w.frameGeometry)
        ++ drawCorners s region data (paintRect s.m_size s.m_corner w.frameGeometry)
        ++ (if ((if mask &&& PAINT_WINDOW_TRANSFORMED != 0 then false else s.m_outline)
                && data.brightness == 1 && data.crossFadeProgress == 1) = true then
              drawOutline s region data w.frameGeometry (big_rect s.m_size w.frameGeometry)
                (paintRect s.m_size s.m_corner w.frameGeometry)
            else [])
        ++ [GLCall.glDisableBlend] := by
  have hgate : ¬ ((!s.m_shaderValid
      || !s.m_managed.contains w.ptr
      || !w.isPaintingEnabled
      || host.hasActiveFullScreenEffect
      || w.isDesktop
      || !hasShadow w
      || (some w.ptr == s.m_applyEffect)) = true) := by
    have ha2 : (some w.ptr == s.m_applyEffect) = false := by
      cases hb : (some w.ptr == s.m_applyEffect)
      · rfl
      · exact absurd (eq_of_beq hb).symm ha
    have hm2 : w.ptr ∈ s.m_managed := by simpa using hm
    simp [hv, hm2, hp, hf, hd, hsh, ha2]
  unfold paintWindow
  rw [if_neg hgate]

/-- C10: for every window whose expanded geometry covers its frame geometry
(the host builds the expanded geometry from the frame and the shadow),
hasShadow returns false if and only if the expanded geometry equals the frame
geometry, in position and in size; so, with all other gates passing,
paintWindow applies the effect to every such window whose expanded geometry
differs from its frame geometry: it captures the four padded corners, lets
the host paint the window, captures the corners again and draws them (and the
outline when it is enabled), instead of only delegating to the host. -/
theorem shadow_test_exact (s : LightlyShadersEffect) (host : Host) (w : EffectWindow)
    (mask : Nat) (region : QRegion) (data : WindowPaintData) (hc : coversFrame w) :
    (hasShadow w = false ↔ w.expandedGeometry = w.frameGeometry)
      ∧ (s.m_shaderValid = true → s.m_managed.contains w.ptr = true →
          w.isPaintingEnabled = true → host.hasActiveFullScreenEffect = false →
          w.isDesktop = false → s.m_applyEffect ≠ some w.ptr →
          w.expandedGeometry ≠ w.frameGeometry →
          paintWindow s host w mask region data
              = getTexRegions host CapturePass.beforeWindow (big_rect s.m_size w.frameGeometry)
                ++ [GLCall.hostPaintWindow w mask region data]
                ++ getTexRegions host CapturePass.afterWindow
                    (big_rect s.m_size w.frameGeometry)
                ++ drawCorners s region data (paintRect s.m_size s.m_corner w.frameGeometry)
                ++ (if ((if mask &&& PAINT_WINDOW_TRANSFORMED != 0 then false else s.m_outline)
                        && data.brightness == 1 && data.crossFadeProgress == 1) = true then
                      drawOutline s region data w.frameGeometry
                        (big_rect s.m_size w.frameGeometry)
                        (paintRect s.m_size s.m_corner w.frameGeometry)
                    else [])
                ++ [GLCall.glDisableBlend]
            ∧ paintWindow s host w mask region data
                ≠ [GLCall.hostPaintWindow w mask region data]
            ∧ (paintWindow s host w mask region data).any GLCall.isCapture = true
            ∧ (paintWindow s host w mask region data).any GLCall.isDraw = true) := by
  refine ⟨hasShadow_eq_false_iff_of_covers w hc, ?_⟩
  intro hv hm hp hf hd ha hne
  have hsh : hasShadow w = true := by
    cases hb : hasShadow w
    · exact absurd ((hasShadow_eq_false_iff_of_covers w hc).1 hb) hne
    · rfl
  have heq := paintWindow_of_open_gate s host w mask region data hv hm hp hf hd ha hsh
  refine ⟨heq, ?_, ?_, ?_⟩
  · rw [heq]
    intro hlist
    have hlen := congrArg List.length hlist
    simp [getTexRegions, Corner.all, drawCorners] at hlen
  · rw [heq]
    simp [getTexRegions, Corner.all, GLCall.isCapture]
  · rw [heq]
    simp [drawCorners, Corner.all, GLCall.isDraw]

/-- Worked instance of C10: `exampleWindow`, tracked and paintable, with a
valid shader and an expanded geometry 10 pixels larger than its frame on each
side: the expanded geometry covers the frame and differs from it, hasShadow
returns true and paintWindow captures and draws. -/
theorem shadow_test_exact_witness :
    coversFrame exampleWindow
      ∧ exampleWindow.expandedGeometry ≠ exampleWindow.frameGeometry
      ∧ hasShadow exampleWindow = true
      ∧ (hasShadow exampleWindow = false
          ↔ exampleWindow.expandedGeometry = exampleWindow.frameGeometry)
      ∧ (paintWindow exampleEffect exampleHost exampleWindow 0 (QRegion.ofRect exampleExpanded)
          examplePaintData).any GLCall.isDraw = true :=
  ⟨by unfold coversFrame; decide, by decide, by decide,
    (shadow_test_exact exampleEffect exampleHost exampleWindow 0
        (QRegion.ofRect exampleExpanded) examplePaintData (by unfold coversFrame; decide)).1,
    ((shadow_test_exact exampleEffect exampleHost exampleWindow 0
        (QRegion.ofRect exampleExpanded) examplePaintData (by unfold coversFrame; decide)).2
      (by decide) (by decide) (by decide) (by decide) (by decide) (by decide) (by decide)).2.2.2⟩

/-! ## Suppression and the option (C11) -/

theorem windowMaximizedStateChanged_keeps_option (s : LightlyShadersEffect) (w : Nat)
    (horizontal vertical : Bool) (h : SuppressionRequiresOption s) :
    SuppressionRequiresOption (windowMaximizedStateChanged s w horizontal vertical) := by
  intro v hv
  rw [windowMaximizedStateChanged_flag]
  cases hflag : s.m_disabled_for_maximized with
  | true => rfl
  | false =>
    have hs : windowMaximizedStateChanged s w horizontal vertical = s := by
      simp [windowMaximizedStateChanged, hflag]
    rw [hs] at hv
    rw [← hflag]
    exact h v hv

theorem reconfigure_on_keeps_option (s : LightlyShadersEffect) (conf : KConfigGroup)
    (hon : readEntry conf.disabled_for_maximized false = true) :
    SuppressionRequiresOption (reconfigure s conf) := by
  intro _ _
  exact hon

theorem reconfigure_keeps_applyEffect (s : LightlyShadersEffect) (conf : KConfigGroup) :
    (reconfigure s conf).m_applyEffect = s.m_applyEffect := rfl

/-- C11, the code at the failing input: the effect is constructed with
disabled_for_maximized on, window 7 maximizes on both axes and is suppressed,
then the option is switched off and reconfigure runs. reconfigure does not
reset m_applyEffect, so window 7 is still suppressed while the option is off:
paintWindow, which drew the rounded corners for it before, only delegates to
the host, and because windowMaximizedStateChanged returns early when the
option is off, restoring the window does not lift the suppression either. -/
theorem suppression_survives_switch_off :
    suppressingEffect.m_applyEffect = none
      ∧ suppressed (runEvents suppressingEffect switchOffWhileMaximized) 7 = true
      ∧ (runEvents suppressingEffect switchOffWhileMaximized).m_disabled_for_maximized = false
      ∧ ¬ SuppressionRequiresOption (runEvents suppressingEffect switchOffWhileMaximized)
      ∧ (paintWindow suppressingEffect exampleHost exampleWindow 0
          (QRegion.ofRect exampleExpanded) examplePaintData).any GLCall.isDraw = true
      ∧ (paintWindow (runEvents suppressingEffect switchOffWhileMaximized) exampleHost
          exampleWindow 0 (QRegion.ofRect exampleExpanded) examplePaintData).length = 1
      ∧ suppressed
          (runEvents suppressingEffect
            (switchOffWhileMaximized ++ [EffectEvent.maximizedStateChanged 7 false false]))
          7 = true := by
  refine ⟨by decide, by decide, by decide, ?_, by decide, by decide, by decide⟩
  intro h
  have h7 := h 7 (by decide)
  revert h7
  decide

end LightlyShaders
